import Mathlib

/-!
Verification of the pwm-gpio driver core (src/pwm-gpio.c): a software PWM
engine that toggles one GPIO line from a self-rescheduling hrtimer callback.

The shallow embedding below translates the driver state (struct gpio_pwm_data)
and its operations (gpio_pwm_on, gpio_pwm_off, gpio_pwm_timer, gpio_pwm_config,
gpio_pwm_set_polarity, gpio_pwm_enable, gpio_pwm_disable, gpio_pwm_request)
into pure Lean functions over an explicit state record.  The kernel hrtimer
collaborator is modelled by an armed flag plus an absolute expiry time, with
hrtimer_forward translated from the kernel implementation (advance the expiry
by multiples of the interval, after clamping the interval to the timer
resolution, until it lies strictly beyond the supplied current time).
The GPIO collaborator is modelled by the electrical level of the line.
Locking behaviour is modelled separately by per-function event traces.
-/

namespace PwmGpio

/-- struct gpio_pwm_data: the per-channel mutable record of pwm-gpio.c
(lines 38-48).  on_time and off_time are C unsigned int, kept as Nat values
below 2 to the 32. -/
structure GpioPwmData where
  is_running : Bool
  polarity : Bool
  pin_on : Bool
  on_time : Nat
  off_time : Nat
deriving DecidableEq

/-- The whole observable machine: the driver record, the electrical level of
the GPIO line (true = high), and the hrtimer collaborator (armed flag and
absolute expiry in nanoseconds). -/
structure SysState where
  data : GpioPwmData
  pin_level : Bool
  timer_armed : Bool
  timer_expires : Int
deriving DecidableEq

/-- Return type of a Linux hrtimer callback. -/
inductive HrtimerRestart where
  | HRTIMER_NORESTART
  | HRTIMER_RESTART
deriving DecidableEq

/-- enum pwm_polarity of the kernel PWM framework. -/
inductive PwmPolarity where
  | PWM_POLARITY_NORMAL
  | PWM_POLARITY_INVERSED
deriving DecidableEq

/-- gpiod_set_value_cansleep: drive the line to low for value 0, high
otherwise. -/
def gpiod_set_value_cansleep (value : Int) (s : SysState) : SysState :=
  { s with pin_level := if value = 0 then false else true }

/-- Core of hrtimer_forward (kernel/time/hrtimer.c) after the interval has
been clamped: if now is before the expiry, leave it; otherwise push the
expiry forward by whole multiples of the interval until it is past now. -/
def hrtimer_forward_core (expires now interval : Int) : Int :=
  if now < expires then expires
  else if interval ≤ now - expires then
    if now < expires + interval * ((now - expires) / interval) then
      expires + interval * ((now - expires) / interval)
    else expires + interval * ((now - expires) / interval) + interval
  else expires + interval

/-- hrtimer_forward with the clamp of the interval to the timer resolution
res, returning the new expiry.  The driver calls it through
hrtimer_forward_now, i.e. with now taken at the moment the callback runs. -/
def hrtimer_forward (res expires now interval : Int) : Int :=
  hrtimer_forward_core expires now (if interval < res then res else interval)

/-- hrtimer_start with a relative deadline: arm the timer at now + delay. -/
def hrtimer_start (now delay : Int) (s : SysState) : SysState :=
  { s with timer_armed := true, timer_expires := now + delay }

/-- hrtimer_cancel: synchronously remove any pending firing. -/
def hrtimer_cancel (s : SysState) : SysState :=
  { s with timer_armed := false }

/-- gpio_pwm_off (pwm-gpio.c lines 50-55): drive the line to the inactive
level (high when polarity is inverted, low otherwise) and record the pin as
deasserted. -/
def gpio_pwm_off (s : SysState) : SysState :=
  let s1 := gpiod_set_value_cansleep (if s.data.polarity then 1 else 0) s
  { s1 with data := { s1.data with pin_on := false } }

/-- gpio_pwm_on (pwm-gpio.c lines 57-62): drive the line to the active level
(low when polarity is inverted, high otherwise) and record the pin as
asserted. -/
def gpio_pwm_on (s : SysState) : SysState :=
  let s1 := gpiod_set_value_cansleep (if s.data.polarity then 0 else 1) s
  { s1 with data := { s1.data with pin_on := true } }

/-- gpio_pwm_timer (pwm-gpio.c lines 64-81): the hrtimer callback.  res is
the timer resolution, now the monotonic time at which the callback runs.
If the pin is deasserted it asserts it and forwards the expiry by on_time,
otherwise it deasserts and forwards by off_time; it always returns
HRTIMER_RESTART. -/
def gpio_pwm_timer (res now : Int) (s : SysState) : SysState × HrtimerRestart :=
  if s.data.pin_on = false then
    let s1 := gpio_pwm_on s
    ({ s1 with timer_expires :=
        hrtimer_forward res s1.timer_expires now (s1.data.on_time : Int) },
     HrtimerRestart.HRTIMER_RESTART)
  else
    let s1 := gpio_pwm_off s
    ({ s1 with timer_expires :=
        hrtimer_forward res s1.timer_expires now (s1.data.off_time : Int) },
     HrtimerRestart.HRTIMER_RESTART)

/-- gpio_pwm_config (pwm-gpio.c lines 83-94): store on_time = duty_ns and
off_time = period_ns - duty_ns with the C conversion from int to unsigned
int (reduction modulo 2 to the 32); always return 0. -/
def gpio_pwm_config (duty_ns period_ns : Int) (s : SysState) : SysState × Int :=
  ({ s with data := { s.data with
      on_time := (duty_ns % (2 : Int) ^ 32).toNat,
      off_time := ((period_ns - duty_ns) % (2 : Int) ^ 32).toNat } }, 0)

/-- gpio_pwm_set_polarity (pwm-gpio.c lines 96-106): store whether the
polarity differs from PWM_POLARITY_NORMAL; always return 0. -/
def gpio_pwm_set_polarity (p : PwmPolarity) (s : SysState) : SysState × Int :=
  ({ s with data := { s.data with
      polarity := if p = PwmPolarity.PWM_POLARITY_NORMAL then false else true } }, 0)

/-- gpio_pwm_enable (pwm-gpio.c lines 108-126): fail with -EBUSY (-16) when
already running, otherwise mark running and start the timer with a zero
relative delay; now is the monotonic time of the call. -/
def gpio_pwm_enable (now : Int) (s : SysState) : SysState × Int :=
  if s.data.is_running then (s, -16)
  else
    let s1 := { s with data := { s.data with is_running := true } }
    (hrtimer_start now 0 s1, 0)

/-- gpio_pwm_disable (pwm-gpio.c lines 128-144): a no-op when not running,
otherwise cancel the timer synchronously, drive the pin to the inactive
level and clear the running flag. -/
def gpio_pwm_disable (s : SysState) : SysState :=
  if s.data.is_running = false then s
  else
    let s1 := hrtimer_cancel s
    let s2 := gpio_pwm_off s1
    { s2 with data := { s2.data with is_running := false } }

/-- The channel state produced by a successful gpio_pwm_request (pwm-gpio.c
lines 146-174): kzalloc zeroes every field (polarity normal, on_time and
off_time 0), the line is claimed with GPIOD_OUT_LOW so it rests low, pin_on
and is_running are cleared, and the timer is initialized but not started. -/
def initState : SysState :=
  { data := { is_running := false, polarity := false, pin_on := false,
              on_time := 0, off_time := 0 },
    pin_level := false,
    timer_armed := false,
    timer_expires := 0 }

/-- Outcome of gpio_pwm_request, with resource accounting: which of the two
acquired resources (the kzalloc allocation and the GPIO line) are still held
when the function returns. -/
structure RequestResult where
  ret : Int
  gpio_data_allocated : Bool
  gpio_claimed : Bool
  chan : Option SysState
deriving DecidableEq

/-- gpio_pwm_request (pwm-gpio.c lines 146-174), with the environment
outcomes as parameters: alloc_ok tells whether kzalloc succeeds, and
gpiod_get_err is the error gpiod_get fails with, if any.  When kzalloc
fails the function returns -ENOMEM (-12) holding nothing; when gpiod_get
fails it returns PTR_ERR without freeing the allocation, so the kzalloc
allocation is still held at return (the source has no kfree on that path). -/
def gpio_pwm_request (alloc_ok : Bool) (gpiod_get_err : Option Int) : RequestResult :=
  if alloc_ok = false then
    { ret := -12, gpio_data_allocated := false, gpio_claimed := false, chan := none }
  else
    match gpiod_get_err with
    | some err =>
        { ret := err, gpio_data_allocated := true, gpio_claimed := false, chan := none }
    | none =>
        { ret := 0, gpio_data_allocated := true, gpio_claimed := true,
          chan := some initState }

/-- The operations that can touch a channel after a successful request:
the four public operations and a firing of the timer callback (which takes
effect only while the timer is armed). -/
inductive Op where
  | config (duty_ns period_ns : Int)
  | set_polarity (p : PwmPolarity)
  | enable (now : Int)
  | disable
  | timer_fire (res now : Int)

/-- One step of the channel state machine.  A timer firing consumes the
pending expiry and rearms exactly when the callback returns
HRTIMER_RESTART, which it always does. -/
def step (s : SysState) : Op → SysState
  | Op.config d p => (gpio_pwm_config d p s).1
  | Op.set_polarity p => (gpio_pwm_set_polarity p s).1
  | Op.enable now => (gpio_pwm_enable now s).1
  | Op.disable => gpio_pwm_disable s
  | Op.timer_fire res now =>
      if s.timer_armed then
        let r := gpio_pwm_timer res now s
        { r.1 with timer_armed :=
            if r.2 = HrtimerRestart.HRTIMER_RESTART then true else false }
      else s

/-- The half-period the callback will forward the expiry by at its next
firing: on_time when the pin is about to be asserted, off_time otherwise. -/
def nextInterval (s : SysState) : Int :=
  if s.data.pin_on = false then (s.data.on_time : Int) else (s.data.off_time : Int)

/-- Run the timer callback once per listed firing time. -/
def runTimer (res : Int) : SysState → List Int → SysState
  | s, [] => s
  | s, t :: ts => runTimer res (gpio_pwm_timer res t s).1 ts

/-- Prompt-firing discipline: each callback runs at or after its scheduled
expiry but before the expiry plus the interval it is about to forward by
(callback latency below one half-period). -/
def promptRun (res : Int) : SysState → List Int → Bool
  | _, [] => true
  | s, t :: ts =>
      decide (s.timer_expires ≤ t) &&
      decide (t < s.timer_expires + nextInterval s) &&
      promptRun res (gpio_pwm_timer res t s).1 ts

/-- The lock-relevant events a function of pwm-gpio.c performs, in program
order: mutex operations, accesses to the fields of struct gpio_pwm_data,
writes to the GPIO line, and hrtimer operations. -/
inductive Action where
  | mutex_lock
  | mutex_unlock
  | read_state
  | write_state
  | pin_write
  | timer_start
  | timer_cancel
  | timer_forward
deriving DecidableEq

/-- True when some state access (field read or write, or pin write) occurs
while the mutex is not held; the Bool argument is whether the mutex is held
at the start of the trace. -/
def unguardedAccess : Bool → List Action → Bool
  | _, [] => false
  | _, Action.mutex_lock :: rest => unguardedAccess true rest
  | _, Action.mutex_unlock :: rest => unguardedAccess false rest
  | held, Action.read_state :: rest => !held || unguardedAccess held rest
  | held, Action.write_state :: rest => !held || unguardedAccess held rest
  | held, Action.pin_write :: rest => !held || unguardedAccess held rest
  | held, Action.timer_start :: rest => unguardedAccess held rest
  | held, Action.timer_cancel :: rest => unguardedAccess held rest
  | held, Action.timer_forward :: rest => unguardedAccess held rest

/-- Whether the mutex is held after the trace runs, starting from the given
held status. -/
def heldAfter : Bool → List Action → Bool
  | held, [] => held
  | _, Action.mutex_lock :: rest => heldAfter true rest
  | _, Action.mutex_unlock :: rest => heldAfter false rest
  | held, _ :: rest => heldAfter held rest

/-- A function trace follows the locking discipline the spec describes:
it takes the per-channel mutex, every state access happens while the mutex
is held, and the mutex is released before returning. -/
def wellLocked (tr : List Action) : Bool :=
  decide (Action.mutex_lock ∈ tr) && !unguardedAccess false tr && !heldAfter false tr

/-- Event trace of gpio_pwm_config (lines 83-94): lock, write on_time,
write off_time, unlock. -/
def gpio_pwm_config_trace : List Action :=
  [Action.mutex_lock, Action.write_state, Action.write_state, Action.mutex_unlock]

/-- Event trace of gpio_pwm_set_polarity (lines 96-106): lock, write
polarity, unlock. -/
def gpio_pwm_set_polarity_trace : List Action :=
  [Action.mutex_lock, Action.write_state, Action.mutex_unlock]

/-- Event trace of gpio_pwm_enable (lines 108-126), by the value of
is_running it reads under the lock. -/
def gpio_pwm_enable_trace (running : Bool) : List Action :=
  if running then
    [Action.mutex_lock, Action.read_state, Action.mutex_unlock]
  else
    [Action.mutex_lock, Action.read_state, Action.write_state,
     Action.timer_start, Action.mutex_unlock]

/-- Event trace of gpio_pwm_disable (lines 128-144), by the value of
is_running it reads under the lock; the running branch cancels the timer,
writes the pin and pin_on inside gpio_pwm_off, then clears is_running. -/
def gpio_pwm_disable_trace (running : Bool) : List Action :=
  if running then
    [Action.mutex_lock, Action.read_state, Action.timer_cancel, Action.pin_write,
     Action.write_state, Action.write_state, Action.mutex_unlock]
  else
    [Action.mutex_lock, Action.read_state, Action.mutex_unlock]

/-- Event trace of the timer callback gpio_pwm_timer (lines 64-81), by the
value of pin_on it reads: read pin_on, write the pin, write pin_on, read
on_time or off_time, forward the timer.  The function body contains no
mutex operation. -/
def gpio_pwm_timer_trace (asserted : Bool) : List Action :=
  if asserted then
    [Action.read_state, Action.pin_write, Action.write_state,
     Action.read_state, Action.timer_forward]
  else
    [Action.read_state, Action.pin_write, Action.write_state,
     Action.read_state, Action.timer_forward]

/-- A running channel with normal polarity, mid cycle in the asserted
phase, used to instantiate the theorems below. -/
def sampleRunning : SysState :=
  { data := { is_running := true, polarity := false, pin_on := true,
              on_time := 3000000, off_time := 7000000 },
    pin_level := true,
    timer_armed := true,
    timer_expires := 100 }

/-- A running channel with a symmetric 5 ns half-period, about to assert
the pin, with expiry at 0. -/
def sampleDrift : SysState :=
  { data := { is_running := true, polarity := false, pin_on := false,
              on_time := 5, off_time := 5 },
    pin_level := false,
    timer_armed := true,
    timer_expires := 0 }

/-- hrtimer_forward under prompt firing: when the interval is at least the
resolution and now lies in the half-open window from the expiry to the
expiry plus the interval, the new expiry is exactly the old expiry plus the
interval. -/
lemma hrtimer_forward_prompt (res e now iv : Int)
    (h1 : res ≤ iv) (h2 : e ≤ now) (h3 : now < e + iv) :
    hrtimer_forward res e now iv = e + iv := by
  unfold hrtimer_forward
  rw [if_neg (by omega)]
  unfold hrtimer_forward_core
  rw [if_neg (by omega), if_neg (by omega)]

/-- The timer callback leaves is_running, polarity, on_time, off_time and
the armed flag unchanged, and always returns HRTIMER_RESTART. -/
lemma gpio_pwm_timer_frame (res now : Int) (s : SysState) :
    (gpio_pwm_timer res now s).1.data.is_running = s.data.is_running
  ∧ (gpio_pwm_timer res now s).1.data.polarity = s.data.polarity
  ∧ (gpio_pwm_timer res now s).1.data.on_time = s.data.on_time
  ∧ (gpio_pwm_timer res now s).1.data.off_time = s.data.off_time
  ∧ (gpio_pwm_timer res now s).1.timer_armed = s.timer_armed
  ∧ (gpio_pwm_timer res now s).2 = HrtimerRestart.HRTIMER_RESTART := by
  unfold gpio_pwm_timer gpio_pwm_on gpio_pwm_off gpiod_set_value_cansleep
  split <;> simp

/-- The new expiry written by the callback is hrtimer_forward of the old
expiry by the interval of the phase being entered. -/
lemma gpio_pwm_timer_expires_eq (res now : Int) (s : SysState) :
    (gpio_pwm_timer res now s).1.timer_expires
      = hrtimer_forward res s.timer_expires now (nextInterval s) := by
  unfold gpio_pwm_timer nextInterval gpio_pwm_on gpio_pwm_off gpiod_set_value_cansleep
  split <;> simp_all

/-- With a fixed symmetric configuration and prompt firings, running the
callback over the listed firing times advances the expiry by exactly one
half-period per firing. -/
lemma runTimer_fixed (res : Int) (half : Nat) :
    ∀ (ts : List Int) (s : SysState),
      res ≤ (half : Int) →
      s.data.on_time = half → s.data.off_time = half →
      promptRun res s ts = true →
      (runTimer res s ts).timer_expires
        = s.timer_expires + (ts.length : Int) * (half : Int) := by
  intro ts
  induction ts with
  | nil =>
      intro s _ _ _ _
      simp [runTimer]
  | cons t ts ih =>
      intro s hres hon hoff hp
      simp only [promptRun, Bool.and_eq_true, decide_eq_true_eq] at hp
      obtain ⟨⟨h1, h2⟩, h3⟩ := hp
      have hiv : nextInterval s = (half : Int) := by
        unfold nextInterval
        split <;> simp [hon, hoff]
      have hexp : (gpio_pwm_timer res t s).1.timer_expires
          = s.timer_expires + (half : Int) := by
        rw [gpio_pwm_timer_expires_eq, hiv]
        exact hrtimer_forward_prompt res s.timer_expires t (half : Int) hres h1
          (by rw [hiv] at h2; exact h2)
      have hframe := gpio_pwm_timer_frame res t s
      have := ih (gpio_pwm_timer res t s).1 hres
        (by rw [hframe.2.2.1, hon]) (by rw [hframe.2.2.2.1, hoff]) h3
      simp only [runTimer, this, hexp, List.length_cons]
      push_cast
      ring

/-- A single step preserves the agreement of is_running with the armed flag
of the timer engine. -/
lemma step_preserves_running_iff_armed (s : SysState) (op : Op)
    (h : s.data.is_running = s.timer_armed) :
    (step s op).data.is_running = (step s op).timer_armed := by
  cases op with
  | config d p => simpa [step, gpio_pwm_config] using h
  | set_polarity p => simpa [step, gpio_pwm_set_polarity] using h
  | enable now =>
      by_cases hr : s.data.is_running
      · simpa [step, gpio_pwm_enable, hr] using h
      · simp [step, gpio_pwm_enable, hr, hrtimer_start]
  | disable =>
      by_cases hr : s.data.is_running
      · simp [step, gpio_pwm_disable, hr, hrtimer_cancel, gpio_pwm_off,
          gpiod_set_value_cansleep]
      · simp only [Bool.not_eq_true] at hr
        simpa [step, gpio_pwm_disable, hr] using h
  | timer_fire res now =>
      by_cases ha : s.timer_armed
      · have hframe := gpio_pwm_timer_frame res now s
        simp [step, ha, hframe.2.2.2.2.2, hframe.1, h]
      · simpa [step, ha] using h

/-- C1: while the engine runs, each firing reschedules with
forward-from-expected-time arithmetic: under prompt firing the new deadline
is the previous expected expiry plus the half-period (and differs from the
firing time plus the half-period whenever the callback ran late), so over N
consecutive firings with a fixed symmetric configuration the k-th phase
boundary sits exactly at the initial expiry plus k half-periods, a bounded,
non-growing deviation from k times the half-period. -/
theorem gpio_pwm_timer_forward_from_expected (res : Int) (half : Nat)
    (s : SysState) (ts : List Int)
    (hres : res ≤ (half : Int)) (hpos : 0 < half)
    (hon : s.data.on_time = half) (hoff : s.data.off_time = half)
    (hprompt : promptRun res s ts = true) :
    (∀ t, s.timer_expires ≤ t → t < s.timer_expires + (half : Int) →
        (gpio_pwm_timer res t s).1.timer_expires = s.timer_expires + (half : Int)
      ∧ (s.timer_expires < t →
          (gpio_pwm_timer res t s).1.timer_expires ≠ t + (half : Int)))
  ∧ (runTimer res s ts).timer_expires
      = s.timer_expires + (ts.length : Int) * (half : Int) := by
  constructor
  · intro t h1 h2
    have hiv : nextInterval s = (half : Int) := by
      unfold nextInterval
      split <;> simp [hon, hoff]
    have hstep : (gpio_pwm_timer res t s).1.timer_expires
        = s.timer_expires + (half : Int) := by
      rw [gpio_pwm_timer_expires_eq, hiv]
      exact hrtimer_forward_prompt _ _ _ _ hres h1 h2
    exact ⟨hstep, fun hlt => by rw [hstep]; omega⟩
  · exact runTimer_fixed res half ts s hres hon hoff hprompt

/-- C1 witness: three prompt firings of the sampleDrift channel land the
expiry exactly three half-periods past the initial expiry. -/
theorem gpio_pwm_timer_forward_from_expected_witness :
    (runTimer 1 sampleDrift [0, 7, 10]).timer_expires
      = sampleDrift.timer_expires
        + ((([0, 7, 10] : List Int).length : Nat) : Int) * ((5 : Nat) : Int) :=
  (gpio_pwm_timer_forward_from_expected 1 5 sampleDrift [0, 7, 10]
    (by decide) (by decide) (by decide) (by decide) (by decide)).2

/-- C2 counterexample: the timer callback trace violates the claimed
locking discipline, since gpio_pwm_timer never takes the per-channel mutex
and accesses the channel state regardless. -/
theorem gpio_pwm_timer_trace_not_locked :
    wellLocked (gpio_pwm_timer_trace false) = false := by decide

/-- C2 (amended): every public operation (configure, set_polarity, enable,
disable) takes the per-channel mutex, performs all its state accesses while
holding it and releases it before returning, in both branches; the timer
callback, however, performs its state and pin accesses without acquiring
the lock at all. -/
theorem public_ops_locked_timer_unlocked :
    wellLocked gpio_pwm_config_trace = true
  ∧ wellLocked gpio_pwm_set_polarity_trace = true
  ∧ (∀ b, wellLocked (gpio_pwm_enable_trace b) = true)
  ∧ (∀ b, wellLocked (gpio_pwm_disable_trace b) = true)
  ∧ (∀ b, unguardedAccess false (gpio_pwm_timer_trace b) = true) := by decide

/-- C3: from any running state, disable cancels the timer (so a subsequent
timer firing is a no-op until the next enable), drives the pin to the
inactive level (high when the polarity is inverted, low otherwise)
regardless of the phase that was active, clears pin_on, and leaves
is_running false. -/
theorem gpio_pwm_disable_stops_engine (s : SysState)
    (hrun : s.data.is_running = true) :
    (gpio_pwm_disable s).timer_armed = false
  ∧ (gpio_pwm_disable s).pin_level = (if s.data.polarity then true else false)
  ∧ (gpio_pwm_disable s).data.pin_on = false
  ∧ (gpio_pwm_disable s).data.is_running = false
  ∧ ∀ res now, step (gpio_pwm_disable s) (Op.timer_fire res now) = gpio_pwm_disable s := by
  have hd : gpio_pwm_disable s
      = { data := { is_running := false, polarity := s.data.polarity,
                    pin_on := false, on_time := s.data.on_time,
                    off_time := s.data.off_time },
          pin_level := if s.data.polarity then true else false,
          timer_armed := false,
          timer_expires := s.timer_expires } := by
    unfold gpio_pwm_disable hrtimer_cancel gpio_pwm_off gpiod_set_value_cansleep
    rw [if_neg (by simp [hrun])]
    by_cases hp : s.data.polarity <;> simp [hp]
  refine ⟨by rw [hd], by rw [hd], by rw [hd], by rw [hd], ?_⟩
  intro res now
  rw [hd]
  simp [step]

/-- C3 witness: disabling the running sampleRunning channel cancels the
timer, rests the pin low, and further timer firings change nothing. -/
theorem gpio_pwm_disable_stops_engine_witness :
    (gpio_pwm_disable sampleRunning).timer_armed = false
  ∧ (gpio_pwm_disable sampleRunning).pin_level
      = (if sampleRunning.data.polarity then true else false)
  ∧ (gpio_pwm_disable sampleRunning).data.pin_on = false
  ∧ (gpio_pwm_disable sampleRunning).data.is_running = false
  ∧ ∀ res now, step (gpio_pwm_disable sampleRunning) (Op.timer_fire res now)
      = gpio_pwm_disable sampleRunning :=
  gpio_pwm_disable_stops_engine sampleRunning (by decide)

/-- C5: disable on a non-running channel is a pure no-op that returns the
state (and hence the pin level) unchanged, and disable is idempotent:
applying it twice from any state yields the same state as applying it
once. -/
theorem gpio_pwm_disable_idempotent (s : SysState) :
    (s.data.is_running = false → gpio_pwm_disable s = s)
  ∧ gpio_pwm_disable (gpio_pwm_disable s) = gpio_pwm_disable s := by
  have noop : ∀ u : SysState, u.data.is_running = false → gpio_pwm_disable u = u := by
    intro u h
    simp [gpio_pwm_disable, h]
  refine ⟨noop s, ?_⟩
  by_cases h : s.data.is_running = false
  · rw [noop s h]
    exact noop s h
  · have h1 : (gpio_pwm_disable s).data.is_running = false := by
      unfold gpio_pwm_disable hrtimer_cancel gpio_pwm_off gpiod_set_value_cansleep
      rw [if_neg h]
    exact noop _ h1

/-- C5 witness: disable on the freshly acquired channel is a no-op, and a
second disable after disabling the running sampleRunning channel changes
nothing. -/
theorem gpio_pwm_disable_idempotent_witness :
    gpio_pwm_disable initState = initState
  ∧ gpio_pwm_disable (gpio_pwm_disable sampleRunning) = gpio_pwm_disable sampleRunning :=
  ⟨(gpio_pwm_disable_idempotent initState).1 (by decide),
   (gpio_pwm_disable_idempotent sampleRunning).2⟩

/-- C4: enable on a running channel fails with -EBUSY (-16) and returns the
state completely unchanged; on a non-running channel it returns 0, marks
the channel running, arms the timer with a zero relative delay (expiry at
the current time plus 0) and touches neither the pin nor the other
fields. -/
theorem gpio_pwm_enable_busy_or_starts (s : SysState) (now : Int) :
    (s.data.is_running = true → gpio_pwm_enable now s = (s, -16))
  ∧ (s.data.is_running = false →
        (gpio_pwm_enable now s).2 = 0
      ∧ (gpio_pwm_enable now s).1.data.is_running = true
      ∧ (gpio_pwm_enable now s).1.timer_armed = true
      ∧ (gpio_pwm_enable now s).1.timer_expires = now + 0
      ∧ (gpio_pwm_enable now s).1.data.polarity = s.data.polarity
      ∧ (gpio_pwm_enable now s).1.data.pin_on = s.data.pin_on
      ∧ (gpio_pwm_enable now s).1.data.on_time = s.data.on_time
      ∧ (gpio_pwm_enable now s).1.data.off_time = s.data.off_time
      ∧ (gpio_pwm_enable now s).1.pin_level = s.pin_level) := by
  constructor
  · intro h
    simp [gpio_pwm_enable, h]
  · intro h
    simp [gpio_pwm_enable, h, hrtimer_start]

/-- C4 witness: a second enable on the running sampleRunning channel
returns -EBUSY unchanged, and enable on the fresh channel at time 42
returns 0 with the timer armed at 42 + 0. -/
theorem gpio_pwm_enable_busy_or_starts_witness :
    gpio_pwm_enable 7 sampleRunning = (sampleRunning, -16)
  ∧ ((gpio_pwm_enable 42 initState).2 = 0
      ∧ (gpio_pwm_enable 42 initState).1.data.is_running = true
      ∧ (gpio_pwm_enable 42 initState).1.timer_armed = true
      ∧ (gpio_pwm_enable 42 initState).1.timer_expires = 42 + 0) :=
  ⟨(gpio_pwm_enable_busy_or_starts sampleRunning 7).1 (by decide),
   ⟨((gpio_pwm_enable_busy_or_starts initState 42).2 (by decide)).1,
    ((gpio_pwm_enable_busy_or_starts initState 42).2 (by decide)).2.1,
    ((gpio_pwm_enable_busy_or_starts initState 42).2 (by decide)).2.2.1,
    ((gpio_pwm_enable_busy_or_starts initState 42).2 (by decide)).2.2.2.1⟩⟩

/-- C6: a firing of the timer callback with the pin deasserted drives the
output to the active level (low when the polarity is inverted, else high),
sets pin_on, and, firing promptly, schedules the next firing one on_time
after the previous expiry; with the pin asserted it drives the inactive
level, clears pin_on and schedules one off_time later; in both cases it
returns HRTIMER_RESTART, never terminating itself. -/
theorem gpio_pwm_timer_toggle_spec (res now : Int) (s : SysState) :
    (s.data.pin_on = false →
        (gpio_pwm_timer res now s).1.pin_level
          = (if s.data.polarity then false else true)
      ∧ (gpio_pwm_timer res now s).1.data.pin_on = true
      ∧ (res ≤ (s.data.on_time : Int) →
          s.timer_expires ≤ now →
          now < s.timer_expires + (s.data.on_time : Int) →
          (gpio_pwm_timer res now s).1.timer_expires
            = s.timer_expires + (s.data.on_time : Int)))
  ∧ (s.data.pin_on = true →
        (gpio_pwm_timer res now s).1.pin_level
          = (if s.data.polarity then true else false)
      ∧ (gpio_pwm_timer res now s).1.data.pin_on = false
      ∧ (res ≤ (s.data.off_time : Int) →
          s.timer_expires ≤ now →
          now < s.timer_expires + (s.data.off_time : Int) →
          (gpio_pwm_timer res now s).1.timer_expires
            = s.timer_expires + (s.data.off_time : Int)))
  ∧ (gpio_pwm_timer res now s).2 = HrtimerRestart.HRTIMER_RESTART := by
  refine ⟨?_, ?_, (gpio_pwm_timer_frame res now s).2.2.2.2.2⟩
  · intro hp
    have hiv : nextInterval s = (s.data.on_time : Int) := by
      unfold nextInterval
      rw [if_pos hp]
    refine ⟨?_, ?_, ?_⟩
    · unfold gpio_pwm_timer gpio_pwm_on gpiod_set_value_cansleep
      rw [if_pos hp]
      by_cases hpol : s.data.polarity <;> simp [hpol]
    · unfold gpio_pwm_timer gpio_pwm_on gpiod_set_value_cansleep
      rw [if_pos hp]
    · intro h1 h2 h3
      rw [gpio_pwm_timer_expires_eq, hiv]
      exact hrtimer_forward_prompt _ _ _ _ h1 h2 h3
  · intro hp
    have hp2 : ¬ s.data.pin_on = false := by simp [hp]
    have hiv : nextInterval s = (s.data.off_time : Int) := by
      unfold nextInterval
      rw [if_neg hp2]
    refine ⟨?_, ?_, ?_⟩
    · unfold gpio_pwm_timer gpio_pwm_off gpiod_set_value_cansleep
      rw [if_neg hp2]
      by_cases hpol : s.data.polarity <;> simp [hpol]
    · unfold gpio_pwm_timer gpio_pwm_off gpiod_set_value_cansleep
      rw [if_neg hp2]
    · intro h1 h2 h3
      rw [gpio_pwm_timer_expires_eq, hiv]
      exact hrtimer_forward_prompt _ _ _ _ h1 h2 h3

/-- C6 witness: firing the callback on the deasserted sampleDrift channel
at time 0 raises the pin, asserts it and schedules on_time later; firing on
the asserted sampleRunning channel at its expiry lowers the pin, deasserts
it and schedules off_time later; both request rearming. -/
theorem gpio_pwm_timer_toggle_spec_witness :
    ((gpio_pwm_timer 1 0 sampleDrift).1.pin_level
        = (if sampleDrift.data.polarity then false else true)
      ∧ (gpio_pwm_timer 1 0 sampleDrift).1.data.pin_on = true
      ∧ (gpio_pwm_timer 1 0 sampleDrift).1.timer_expires
          = sampleDrift.timer_expires + (sampleDrift.data.on_time : Int))
  ∧ ((gpio_pwm_timer 1 100 sampleRunning).1.pin_level
        = (if sampleRunning.data.polarity then true else false)
      ∧ (gpio_pwm_timer 1 100 sampleRunning).1.data.pin_on = false
      ∧ (gpio_pwm_timer 1 100 sampleRunning).1.timer_expires
          = sampleRunning.timer_expires + (sampleRunning.data.off_time : Int))
  ∧ (gpio_pwm_timer 1 0 sampleDrift).2 = HrtimerRestart.HRTIMER_RESTART := by
  have h1 := (gpio_pwm_timer_toggle_spec 1 0 sampleDrift).1 (by decide)
  have h2 := ((gpio_pwm_timer_toggle_spec 1 100 sampleRunning).2.1) (by decide)
  have h3 := (gpio_pwm_timer_toggle_spec 1 0 sampleDrift).2.2
  exact ⟨⟨h1.1, h1.2.1, h1.2.2 (by decide) (by decide) (by decide)⟩,
         ⟨h2.1, h2.2.1, h2.2.2 (by decide) (by decide) (by decide)⟩, h3⟩

/-- C7: configure always returns 0, stores on_time = duty_ns and
off_time = period_ns - duty_ns under the C int-to-unsigned conversion with
no validation whatsoever (so duty_ns greater than period_ns wraps), and
leaves the polarity, the phase, the running flag, the pin level and the
timer untouched; for in-range inputs the stored values are exactly duty_ns
and period_ns - duty_ns. -/
theorem gpio_pwm_config_spec (duty_ns period_ns : Int) (s : SysState) :
    (gpio_pwm_config duty_ns period_ns s).2 = 0
  ∧ (gpio_pwm_config duty_ns period_ns s).1.data.on_time
      = (duty_ns % (2 : Int) ^ 32).toNat
  ∧ (gpio_pwm_config duty_ns period_ns s).1.data.off_time
      = ((period_ns - duty_ns) % (2 : Int) ^ 32).toNat
  ∧ (gpio_pwm_config duty_ns period_ns s).1.data.polarity = s.data.polarity
  ∧ (gpio_pwm_config duty_ns period_ns s).1.data.pin_on = s.data.pin_on
  ∧ (gpio_pwm_config duty_ns period_ns s).1.data.is_running = s.data.is_running
  ∧ (gpio_pwm_config duty_ns period_ns s).1.pin_level = s.pin_level
  ∧ (gpio_pwm_config duty_ns period_ns s).1.timer_armed = s.timer_armed
  ∧ (gpio_pwm_config duty_ns period_ns s).1.timer_expires = s.timer_expires
  ∧ (0 ≤ duty_ns → duty_ns ≤ period_ns → period_ns < 2 ^ 32 →
        ((gpio_pwm_config duty_ns period_ns s).1.data.on_time : Int) = duty_ns
      ∧ ((gpio_pwm_config duty_ns period_ns s).1.data.off_time : Int)
          = period_ns - duty_ns) := by
  refine ⟨rfl, rfl, rfl, rfl, rfl, rfl, rfl, rfl, rfl, ?_⟩
  intro h1 h2 h3
  constructor
  · show (((duty_ns % (2 : Int) ^ 32).toNat : Int)) = duty_ns
    rw [Int.toNat_of_nonneg (Int.emod_nonneg _ (by norm_num))]
    exact Int.emod_eq_of_lt h1 (by omega)
  · show ((((period_ns - duty_ns) % (2 : Int) ^ 32).toNat : Int)) = period_ns - duty_ns
    rw [Int.toNat_of_nonneg (Int.emod_nonneg _ (by norm_num))]
    exact Int.emod_eq_of_lt (by omega) (by omega)

/-- C7 witness: configure with duty 3000000 and period 10000000 on the
fresh channel returns 0 and stores exactly those timings, leaving
everything else alone; out-of-range duty 10 with period 3 wraps the
off-time as the C arithmetic does. -/
theorem gpio_pwm_config_spec_witness :
    (gpio_pwm_config 3000000 10000000 initState).2 = 0
  ∧ ((gpio_pwm_config 3000000 10000000 initState).1.data.on_time : Int) = 3000000
  ∧ ((gpio_pwm_config 3000000 10000000 initState).1.data.off_time : Int)
      = 10000000 - 3000000
  ∧ (gpio_pwm_config 3000000 10000000 initState).1.data.is_running
      = initState.data.is_running
  ∧ (gpio_pwm_config 10 3 initState).1.data.off_time
      = ((3 - 10 : Int) % (2 : Int) ^ 32).toNat :=
  ⟨(gpio_pwm_config_spec 3000000 10000000 initState).1,
   ((gpio_pwm_config_spec 3000000 10000000 initState).2.2.2.2.2.2.2.2.2
      (by norm_num) (by norm_num) (by norm_num)).1,
   ((gpio_pwm_config_spec 3000000 10000000 initState).2.2.2.2.2.2.2.2.2
      (by norm_num) (by norm_num) (by norm_num)).2,
   (gpio_pwm_config_spec 3000000 10000000 initState).2.2.2.2.2.1,
   (gpio_pwm_config_spec 10 3 initState).2.2.1⟩

/-- When the pin is deasserted, a callback firing drives the line to the
active level: low when the polarity is inverted, high otherwise. -/
lemma gpio_pwm_timer_active_level (res now : Int) (s : SysState)
    (hp : s.data.pin_on = false) :
    (gpio_pwm_timer res now s).1.pin_level
      = (if s.data.polarity then false else true) := by
  unfold gpio_pwm_timer gpio_pwm_on gpiod_set_value_cansleep
  rw [if_pos hp]
  by_cases hpol : s.data.polarity <;> simp [hpol]

/-- C8: evaluating gpio_pwm_request at the failing input.  When kzalloc
succeeds but gpiod_get fails (here with -2, -ENOENT), the error is returned
to the caller while the kzalloc allocation is still held: the already
allocated channel record is leaked, not released, since the source returns
PTR_ERR without a kfree on that path.  The kzalloc-failure path itself
returns -ENOMEM (-12) holding nothing. -/
theorem gpio_pwm_request_leaks_on_gpiod_failure :
    (gpio_pwm_request true (some (-2))).ret = -2
  ∧ (gpio_pwm_request true (some (-2))).gpio_data_allocated = true
  ∧ (gpio_pwm_request true (some (-2))).gpio_claimed = false
  ∧ (gpio_pwm_request true (some (-2))).chan = none
  ∧ (gpio_pwm_request false none).ret = -12
  ∧ (gpio_pwm_request false none).gpio_data_allocated = false := by decide

/-- C9: in every state reachable from the freshly acquired channel through
any interleaving of configure, set_polarity, enable, disable and timer
firings, the running flag agrees with the timer engine: is_running is true
exactly when a firing is pending. -/
theorem running_iff_timer_armed (ops : List Op) :
    (ops.foldl step initState).data.is_running
      = (ops.foldl step initState).timer_armed := by
  have key : ∀ (l : List Op) (s : SysState),
      s.data.is_running = s.timer_armed →
      (l.foldl step s).data.is_running = (l.foldl step s).timer_armed := by
    intro l
    induction l with
    | nil => intro s h; exact h
    | cons op l ih =>
        intro s h
        exact ih (step s op) (step_preserves_running_iff_armed s op h)
  exact key ops initState rfl

/-- C10: a successful enable performs no pin write — the line level at
return equals the level before the call (in fact in both branches) — and
the first transition to the active level happens only inside the first
timer firing that enable arms. -/
theorem gpio_pwm_enable_no_pin_write (s : SysState) (now res t : Int) :
    (gpio_pwm_enable now s).1.pin_level = s.pin_level
  ∧ (s.data.pin_on = false →
      (gpio_pwm_timer res t (gpio_pwm_enable now s).1).1.pin_level
        = (if s.data.polarity then false else true)) := by
  have hframe : (gpio_pwm_enable now s).1.pin_level = s.pin_level
      ∧ (gpio_pwm_enable now s).1.data.pin_on = s.data.pin_on
      ∧ (gpio_pwm_enable now s).1.data.polarity = s.data.polarity := by
    by_cases h : s.data.is_running <;> simp [gpio_pwm_enable, h, hrtimer_start]
  refine ⟨hframe.1, ?_⟩
  intro hp
  rw [gpio_pwm_timer_active_level res t _ (by rw [hframe.2.1]; exact hp),
    hframe.2.2]

/-- C10 witness: enabling the fresh channel leaves its line low, and the
first firing of the armed timer drives it to the active (high) level. -/
theorem gpio_pwm_enable_no_pin_write_witness :
    (gpio_pwm_enable 0 initState).1.pin_level = initState.pin_level
  ∧ (gpio_pwm_timer 1 0 (gpio_pwm_enable 0 initState).1).1.pin_level
      = (if initState.data.polarity then false else true) :=
  ⟨(gpio_pwm_enable_no_pin_write initState 0 1 0).1,
   (gpio_pwm_enable_no_pin_write initState 0 1 0).2 (by decide)⟩

end PwmGpio
